import Mathlib

/-!
Shallow embedding of the OpenFPGA link-arch / repack orchestration layer
(`openfpga_link_arch.cpp`, `openfpga_repack.cpp`) together with the
pure facts proved about it.  Machine data is modelled with `Nat`/`Int`/`Rat`;
fallible control flow with `Option`.
-/

namespace openfpga

/-- Routing-resource node types, as used by the checker (from VPR's rr type). -/
inductive RRType
  | SOURCE
  | SINK
  | IPIN
  | OPIN
  | CHANX
  | CHANY
deriving DecidableEq, Repr

/-- Direction attribute of a routing-resource node. -/
inductive RRDirection
  | INC_DIRECTION
  | DEC_DIRECTION
  | BI_DIRECTION
  | NO_DIRECTION
deriving DecidableEq, Repr

/-- A routing-resource node carries a type and a direction. -/
structure RRNode where
  node_type : RRType
  node_direction : RRDirection
deriving DecidableEq, Repr

/-- The routing-resource graph, reduced to its node collection: the checker
only reads each node's type and direction. -/
structure RRGraph where
  nodes : List RRNode
deriving DecidableEq, Repr

/-- The node loop of `is_vpr_rr_graph_supported`: skip non-channel nodes,
return `false` on the first bidirectional channel node. -/
def rr_nodes_supported : List RRNode → Bool
  | [] => true
  | node :: rest =>
    if RRType.CHANX ≠ node.node_type ∧ RRType.CHANY ≠ node.node_type then
      rr_nodes_supported rest
    else if RRDirection.BI_DIRECTION = node.node_direction then
      false
    else
      rr_nodes_supported rest

/-- `is_vpr_rr_graph_supported` from `openfpga_link_arch.cpp`: the graph is
supported iff no channel node is bidirectional. -/
def is_vpr_rr_graph_supported (rr_graph : RRGraph) : Bool :=
  rr_nodes_supported rr_graph.nodes

/-- A uni-directional single-channel graph used as a concrete witness input. -/
def gUni : RRGraph :=
  { nodes := [{ node_type := RRType.CHANX, node_direction := RRDirection.INC_DIRECTION }] }

/-- A graph with one bidirectional CHANX node, used as a concrete failing input. -/
def gBidir : RRGraph :=
  { nodes := [{ node_type := RRType.CHANX, node_direction := RRDirection.BI_DIRECTION }] }

/-- A non-channel node that is bidirectional; it must not affect the checker. -/
def srcNode : RRNode :=
  { node_type := RRType.SOURCE, node_direction := RRDirection.BI_DIRECTION }

/-- Simulation settings touched by `annotate_simulation_setting`: the
operating clock frequency, its slack fraction, and the cycle count
(the latter is carried only to state frame conditions). -/
structure SimulationSetting where
  operating_clock_frequency : ℚ
  operating_clock_frequency_slack : ℚ
  num_clock_cycles : ℕ
deriving DecidableEq, Repr

/-- Setter used by the annotator. -/
def set_operating_clock_frequency (s : SimulationSetting) (f : ℚ) : SimulationSetting :=
  { s with operating_clock_frequency := f }

/-- `annotate_simulation_setting` from `openfpga_link_arch.cpp`.  The timing
analysis is an external VPR service; its result, the least-slack critical
path delay, is passed in as a parameter.  When the configured frequency is
the sentinel `0`, the code computes `T_crit = delay * (1 + slack)` and sets
the frequency to `1 / T_crit`; otherwise the setting is left as is. -/
def annotate_simulation_setting (least_slack_critical_path_delay : ℚ)
    (sim_setting : SimulationSetting) : SimulationSetting :=
  if 0 = sim_setting.operating_clock_frequency then
    let T_crit := least_slack_critical_path_delay *
      (1 + sim_setting.operating_clock_frequency_slack)
    set_operating_clock_frequency sim_setting (1 / T_crit)
  else
    sim_setting

/-- The branch condition of `annotate_simulation_setting` deciding whether
the timing analysis is run. -/
def simulation_timing_triggered (sim_setting : SimulationSetting) : Bool :=
  if 0 = sim_setting.operating_clock_frequency then true else false

/-- A concrete simulation setting with a pre-configured (nonzero) frequency. -/
def ss0 : SimulationSetting :=
  { operating_clock_frequency := 1, operating_clock_frequency_slack := 0,
    num_clock_cycles := 0 }

/-- The passes invoked by `link_arch`, in the source's textual order; used to
record an execution trace. -/
inductive LinkPass
  | annotate_pb_types
  | annotate_pb_graph
  | annotate_rr_graph_circuit_models
  | vpr_routing_annot_init
  | annotate_rr_node_nets
  | check_rr_graph_support
  | annotate_device_rr_gsb
  | build_device_mux_library
  | build_device_tile_direct
  | annotate_mapped_blocks
  | annotate_simulation_setting
deriving DecidableEq, Repr

/-- The OpenFPGA link context, reduced to what `link_arch` writes: one flag
per annotation structure recording whether the owning pass populated it
(the pass bodies live outside this excerpt), plus the simulation setting. -/
structure OpenfpgaContext where
  vpr_device_annot_populated : Bool
  vpr_routing_annot_populated : Bool
  device_rr_gsb_populated : Bool
  mux_lib_populated : Bool
  tile_direct_populated : Bool
  vpr_placement_annot_populated : Bool
  sim_setting : SimulationSetting
deriving DecidableEq, Repr

/-- `link_arch` from `openfpga_link_arch.cpp`: runs the pb-type, pb-graph and
circuit-model annotators, initializes and fills the routing annotation, then
checks `is_vpr_rr_graph_supported` and returns early on failure; otherwise it
builds the GSBs, the mux library, the tile directs, the placement annotation
and finally annotates the simulation setting.  Returns the updated context
and the trace of passes reached. -/
def link_arch (openfpga_ctx : OpenfpgaContext) (rr_graph : RRGraph)
    (least_slack_critical_path_delay : ℚ) : OpenfpgaContext × List LinkPass :=
  let ctx1 := { openfpga_ctx with vpr_device_annot_populated := true }
  let ctx2 := { ctx1 with vpr_routing_annot_populated := true }
  let pre := [LinkPass.annotate_pb_types, LinkPass.annotate_pb_graph,
              LinkPass.annotate_rr_graph_circuit_models,
              LinkPass.vpr_routing_annot_init, LinkPass.annotate_rr_node_nets,
              LinkPass.check_rr_graph_support]
  if false = is_vpr_rr_graph_supported rr_graph then
    (ctx2, pre)
  else
    let ctx3 := { ctx2 with device_rr_gsb_populated := true }
    let ctx4 := { ctx3 with mux_lib_populated := true }
    let ctx5 := { ctx4 with tile_direct_populated := true }
    let ctx6 := { ctx5 with vpr_placement_annot_populated := true }
    let ctx7 := { ctx6 with
      sim_setting := annotate_simulation_setting least_slack_critical_path_delay
        ctx6.sim_setting }
    (ctx7, pre ++ [LinkPass.annotate_device_rr_gsb, LinkPass.build_device_mux_library,
                   LinkPass.build_device_tile_direct, LinkPass.annotate_mapped_blocks,
                   LinkPass.annotate_simulation_setting])

/-- A concrete link context with nothing populated yet. -/
def ctx0 : OpenfpgaContext :=
  { vpr_device_annot_populated := false, vpr_routing_annot_populated := false,
    device_rr_gsb_populated := false, mux_lib_populated := false,
    tile_direct_populated := false, vpr_placement_annot_populated := false,
    sim_setting := ss0 }

/-- Success exit code of a shell command (`CMD_EXEC_SUCCESS`). -/
def CMD_EXEC_SUCCESS : Int := 0

/-- A design-constraint rule pinning an atom net to a physical pin. -/
structure PinConstraint where
  net : ℕ
  physical_pin : ℕ
deriving DecidableEq, Repr

/-- A clustered atom net sitting on an operating pin. -/
structure AtomNetPlacement where
  net : ℕ
  operating_pin : ℕ
deriving DecidableEq, Repr

/-- A physical packing fact: the net goes through this physical pin. -/
structure PhysicalNetBinding where
  net : ℕ
  physical_pin : ℕ
deriving DecidableEq, Repr

/-- The physical-binding part of the device annotation: which physical pin
realizes each operating pin. -/
structure VprDeviceAnnot where
  physical_pin_of : ℕ → ℕ

/-- Modelled from the spec: `pack_physical_pbs` (its body is not in this
excerpt) constructs the physical realization of every clustered operating pb
via the default structural mapping of the physical-binding annotation.  Its
call in `repack` carries no design-constraint argument, so neither does the
model. -/
def pack_physical_pbs (clustering : List AtomNetPlacement)
    (dev_annot : VprDeviceAnnot) : List PhysicalNetBinding :=
  clustering.map (fun p =>
    { net := p.net, physical_pin := dev_annot.physical_pin_of p.operating_pin })

/-- The two command options read by `repack`. -/
structure RepackOptions where
  design_constraints_enabled : Bool
  design_constraints_value : String
  verbose : Bool
deriving DecidableEq, Repr

/-- Modelled from the spec: outcomes of the two internal repack steps
(`pack_physical_pbs`, `build_physical_lut_truth_tables`).  The source calls
both as statements returning no status, so these outcomes have no channel to
the value `repack` returns. -/
structure RepackStepResults where
  pack_physical_pbs_ok : Bool
  build_physical_lut_truth_tables_ok : Bool
deriving DecidableEq, Repr

/-- What a completed `repack` run yields: the physical packing recorded in
the clustering annotation, and the completion code handed to the shell. -/
structure RepackResult where
  vpr_clustering_annot : List PhysicalNetBinding
  exit_code : Int
deriving DecidableEq, Repr

/-- `VTR_ASSERT`: a failed assertion aborts the process (`none`). -/
def VTR_ASSERT (cond : Bool) : Option Unit :=
  if cond then some () else none

/-- `repack` from `openfpga_repack.cpp`: when the `design_constraints` option
is enabled, asserts the file name is non-empty and parses the file (the XML
reader is external and passed as a parameter); the parsed constraints are
bound to a local that is never used again.  It then runs the packing and
truth-table steps and returns `CMD_EXEC_SUCCESS`.  `none` models a fatal
`VTR_ASSERT` abort. -/
def repack (opts : RepackOptions)
    (read_xml_repack_design_constraints : String → List PinConstraint)
    (clustering : List AtomNetPlacement) (dev_annot : VprDeviceAnnot)
    (_steps : RepackStepResults) : Option RepackResult :=
  let loaded : Option (List PinConstraint) :=
    if opts.design_constraints_enabled then
      let dc_fname := opts.design_constraints_value
      match VTR_ASSERT (!dc_fname.isEmpty) with
      | none => none
      | some _ => some (read_xml_repack_design_constraints dc_fname)
    else
      some []
  match loaded with
  | none => none
  | some _repack_design_constraints =>
      some { vpr_clustering_annot := pack_physical_pbs clustering dev_annot,
             exit_code := CMD_EXEC_SUCCESS }

/-- Options enabling design constraints with a concrete file name. -/
def optsDc : RepackOptions :=
  { design_constraints_enabled := true, design_constraints_value := "dc.xml",
    verbose := false }

/-- Options with design constraints disabled. -/
def optsNoDc : RepackOptions :=
  { design_constraints_enabled := false, design_constraints_value := "",
    verbose := false }

/-- Options enabling design constraints with an empty file name. -/
def optsEmptyDc : RepackOptions :=
  { design_constraints_enabled := true, design_constraints_value := "",
    verbose := false }

/-- A constraint table pinning atom net 0 to physical pin 5. -/
def readXmlPin5 : String → List PinConstraint :=
  fun _ => [{ net := 0, physical_pin := 5 }]

/-- A clustering placing atom net 0 on operating pin 0. -/
def clusteringEx : List AtomNetPlacement :=
  [{ net := 0, operating_pin := 0 }]

/-- The identity physical-pin binding: operating pin i realized by physical
pin i. -/
def devAnnotId : VprDeviceAnnot :=
  { physical_pin_of := fun p => p }

/-- Both internal repack steps succeeded. -/
def stepsOk : RepackStepResults :=
  { pack_physical_pbs_ok := true, build_physical_lut_truth_tables_ok := true }

/-- Both internal repack steps failed. -/
def stepsFail : RepackStepResults :=
  { pack_physical_pbs_ok := false, build_physical_lut_truth_tables_ok := false }

/-- A structural multiplexer signature: ordered input-source classes, output
class and circuit model. -/
structure MuxSignature where
  input_classes : List ℕ
  output_class : ℕ
  circuit_model : ℕ
deriving DecidableEq, Repr

/-- The multiplexer library: canonical entries in first-seen order; an
entry's identifier is its position. -/
structure MuxLibrary where
  entries : List MuxSignature
deriving DecidableEq, Repr

/-- Modelled from the spec: adding one mux to the library looks its
structural signature up and allocates a new canonical entry only when the
signature is absent. -/
def mux_library_add (lib : MuxLibrary) (sig : MuxSignature) : MuxLibrary :=
  if sig ∈ lib.entries then lib else { entries := lib.entries ++ [sig] }

/-- Modelled from the spec: `build_device_mux_library` (its body is not in
this excerpt) folds every multiplexer instance implied by the GSBs and
pb-interconnect, given here as the list of their structural signatures,
into an initially empty library. -/
def build_device_mux_library (device_muxes : List MuxSignature) : MuxLibrary :=
  device_muxes.foldl mux_library_add { entries := [] }

/-- A concrete mux signature used as a witness input. -/
def sigA : MuxSignature :=
  { input_classes := [0, 1], output_class := 0, circuit_model := 0 }

theorem rr_nodes_supported_eq_true_iff : ∀ nodes : List RRNode,
    rr_nodes_supported nodes = true ↔
      ∀ n ∈ nodes,
        (n.node_type = RRType.CHANX ∨ n.node_type = RRType.CHANY) →
          n.node_direction ≠ RRDirection.BI_DIRECTION
  | [] => by simp [rr_nodes_supported]
  | node :: rest => by
    have ih := rr_nodes_supported_eq_true_iff rest
    by_cases h1 : RRType.CHANX ≠ node.node_type ∧ RRType.CHANY ≠ node.node_type
    · rw [rr_nodes_supported, if_pos h1, ih]
      constructor
      · intro hr n hn
        rcases List.mem_cons.mp hn with rfl | hn
        · intro hc
          rcases hc with hc | hc
          · exact absurd hc.symm h1.1
          · exact absurd hc.symm h1.2
        · exact hr n hn
      · intro hr n hn
        exact hr n (List.mem_cons_of_mem _ hn)
    · have hch : node.node_type = RRType.CHANX ∨ node.node_type = RRType.CHANY := by
        by_contra hc
        push_neg at hc
        exact h1 ⟨fun he => hc.1 he.symm, fun he => hc.2 he.symm⟩
      by_cases h2 : RRDirection.BI_DIRECTION = node.node_direction
      · rw [rr_nodes_supported, if_neg h1, if_pos h2]
        constructor
        · intro hfe
          exact absurd hfe Bool.false_ne_true
        · intro hall
          exact absurd h2.symm (hall node (List.mem_cons_self _ _) hch)
      · rw [rr_nodes_supported, if_neg h1, if_neg h2, ih]
        constructor
        · intro hr n hn
          rcases List.mem_cons.mp hn with rfl | hn
          · intro _ hd
            exact h2 hd.symm
          · exact hr n hn
        · intro hr n hn
          exact hr n (List.mem_cons_of_mem _ hn)

/-- C5: `is_vpr_rr_graph_supported` succeeds exactly on the graphs whose
channel (CHANX/CHANY) nodes are all non-bidirectional, and prepending a
non-channel node never changes the result. -/
theorem is_vpr_rr_graph_supported_spec :
    (∀ g : RRGraph, is_vpr_rr_graph_supported g = true ↔
       ∀ n ∈ g.nodes,
         (n.node_type = RRType.CHANX ∨ n.node_type = RRType.CHANY) →
           n.node_direction ≠ RRDirection.BI_DIRECTION) ∧
    (∀ (g : RRGraph) (n : RRNode),
       n.node_type ≠ RRType.CHANX → n.node_type ≠ RRType.CHANY →
       is_vpr_rr_graph_supported { nodes := n :: g.nodes } = is_vpr_rr_graph_supported g) := by
  constructor
  · intro g
    exact rr_nodes_supported_eq_true_iff g.nodes
  · intro g n h1 h2
    show rr_nodes_supported (n :: g.nodes) = rr_nodes_supported g.nodes
    rw [rr_nodes_supported, if_pos ⟨fun he => h1 he.symm, fun he => h2 he.symm⟩]

/-- C5 witness: the characterization applied to concrete graphs; the
bidirectional SOURCE node `srcNode` does not change the checker's verdict. -/
theorem is_vpr_rr_graph_supported_spec_witness :
    (is_vpr_rr_graph_supported gUni = true ↔
       ∀ n ∈ gUni.nodes,
         (n.node_type = RRType.CHANX ∨ n.node_type = RRType.CHANY) →
           n.node_direction ≠ RRDirection.BI_DIRECTION) ∧
    is_vpr_rr_graph_supported { nodes := srcNode :: gUni.nodes } =
      is_vpr_rr_graph_supported gUni :=
  ⟨is_vpr_rr_graph_supported_spec.1 gUni,
   is_vpr_rr_graph_supported_spec.2 gUni srcNode (by decide) (by decide)⟩

/-- C6: when the configured operating clock frequency is the derive-from-
timing sentinel, the annotator sets it to exactly `1 / (T * (1 + s))` where
`T` is the least-slack critical-path delay and `s` the slack fraction. -/
theorem annotate_sim_setting_derived_frequency (T : ℚ) (s : SimulationSetting)
    (h : s.operating_clock_frequency = 0) :
    (annotate_simulation_setting T s).operating_clock_frequency =
      1 / (T * (1 + s.operating_clock_frequency_slack)) := by
  rw [annotate_simulation_setting, if_pos h.symm]
  rfl

/-- C6 witness: with delay 2 and slack 1/2 over a sentinel setting, the
derived frequency is `1 / (2 * (1 + 1/2))`. -/
theorem annotate_sim_setting_derived_frequency_witness :
    (({ operating_clock_frequency := 0, operating_clock_frequency_slack := 1/2,
        num_clock_cycles := 8 } : SimulationSetting).operating_clock_frequency = 0) ∧
    (annotate_simulation_setting 2
      { operating_clock_frequency := 0, operating_clock_frequency_slack := 1/2,
        num_clock_cycles := 8 }).operating_clock_frequency =
      1 / (2 * (1 + 1/2)) :=
  ⟨rfl, annotate_sim_setting_derived_frequency 2 _ rfl⟩

/-- C7: a non-sentinel configured frequency leaves the whole simulation
setting unchanged, frequency and all other fields alike. -/
theorem annotate_sim_setting_frame (T : ℚ) (s : SimulationSetting)
    (h : s.operating_clock_frequency ≠ 0) :
    annotate_simulation_setting T s = s := by
  rw [annotate_simulation_setting, if_neg (fun he => h he.symm)]

/-- C7 witness: the setting `ss0` with frequency 1 is returned untouched. -/
theorem annotate_sim_setting_frame_witness :
    ss0.operating_clock_frequency ≠ 0 ∧ annotate_simulation_setting 3 ss0 = ss0 :=
  ⟨by decide, annotate_sim_setting_frame 3 ss0 (by decide)⟩

/-- C9: the derive-from-timing sentinel is the exact value 0: the timing
analysis branch is taken iff the configured frequency equals 0, any change
to the setting implies the frequency was 0, and a strictly negative
frequency is left untouched. -/
theorem annotate_sim_setting_sentinel_zero :
    ∀ (T : ℚ) (s : SimulationSetting),
      (simulation_timing_triggered s = true ↔ s.operating_clock_frequency = 0) ∧
      (annotate_simulation_setting T s ≠ s → s.operating_clock_frequency = 0) ∧
      (s.operating_clock_frequency < 0 → annotate_simulation_setting T s = s) := by
  intro T s
  refine ⟨?_, ?_, ?_⟩
  · rw [simulation_timing_triggered]
    by_cases h : 0 = s.operating_clock_frequency
    · rw [if_pos h]
      simp [h.symm]
    · rw [if_neg h]
      constructor
      · intro hfe
        exact absurd hfe Bool.false_ne_true
      · intro he
        exact absurd he.symm h
  · intro hne
    by_contra h0
    exact hne (by rw [annotate_simulation_setting, if_neg (fun he => h0 he.symm)])
  · intro hlt
    rw [annotate_simulation_setting, if_neg (fun he => absurd he.symm (ne_of_lt hlt))]

/-- C9 witness: a negative configured frequency of -1 does not trigger the
timing analysis and is left untouched. -/
theorem annotate_sim_setting_sentinel_zero_witness :
    (simulation_timing_triggered
        { operating_clock_frequency := -1, operating_clock_frequency_slack := 0,
          num_clock_cycles := 0 } = true ↔
      ({ operating_clock_frequency := -1, operating_clock_frequency_slack := 0,
         num_clock_cycles := 0 } : SimulationSetting).operating_clock_frequency = 0) ∧
    annotate_simulation_setting 5
      { operating_clock_frequency := -1, operating_clock_frequency_slack := 0,
        num_clock_cycles := 0 } =
      { operating_clock_frequency := -1, operating_clock_frequency_slack := 0,
        num_clock_cycles := 0 } :=
  ⟨(annotate_sim_setting_sentinel_zero 5 _).1,
   (annotate_sim_setting_sentinel_zero 5 _).2.2 (by decide)⟩

/-- C2 counterexample: on a graph with a bidirectional CHANX node,
`link_arch` returns early, yet the device and routing annotations have
already been populated — refuting "no device, routing, ... annotation is
populated". -/
theorem link_arch_no_annot_cex :
    ({ node_type := RRType.CHANX, node_direction := RRDirection.BI_DIRECTION } : RRNode)
        ∈ gBidir.nodes ∧
    (link_arch ctx0 gBidir 1).1.vpr_device_annot_populated = true ∧
    (link_arch ctx0 gBidir 1).1.vpr_routing_annot_populated = true := by
  decide

/-- C2 (amended): on a graph rejected by the compatibility checker,
`link_arch` returns before building GSB, mux-library, tile-direct and
placement annotations and before touching the simulation setting, but the
device and routing annotations have already been populated. -/
theorem link_arch_unsupported_rr_graph_effects
    (ctx : OpenfpgaContext) (g : RRGraph) (T : ℚ)
    (h : is_vpr_rr_graph_supported g = false) :
    (link_arch ctx g T).1.device_rr_gsb_populated = ctx.device_rr_gsb_populated ∧
    (link_arch ctx g T).1.mux_lib_populated = ctx.mux_lib_populated ∧
    (link_arch ctx g T).1.tile_direct_populated = ctx.tile_direct_populated ∧
    (link_arch ctx g T).1.vpr_placement_annot_populated =
      ctx.vpr_placement_annot_populated ∧
    (link_arch ctx g T).1.sim_setting = ctx.sim_setting ∧
    (link_arch ctx g T).1.vpr_device_annot_populated = true ∧
    (link_arch ctx g T).1.vpr_routing_annot_populated = true := by
  simp [link_arch, h]

/-- C2 witness: the amended statement at the concrete rejected graph. -/
theorem link_arch_unsupported_rr_graph_effects_witness :
    is_vpr_rr_graph_supported gBidir = false ∧
    ((link_arch ctx0 gBidir 1).1.device_rr_gsb_populated = ctx0.device_rr_gsb_populated ∧
     (link_arch ctx0 gBidir 1).1.mux_lib_populated = ctx0.mux_lib_populated ∧
     (link_arch ctx0 gBidir 1).1.tile_direct_populated = ctx0.tile_direct_populated ∧
     (link_arch ctx0 gBidir 1).1.vpr_placement_annot_populated =
       ctx0.vpr_placement_annot_populated ∧
     (link_arch ctx0 gBidir 1).1.sim_setting = ctx0.sim_setting ∧
     (link_arch ctx0 gBidir 1).1.vpr_device_annot_populated = true ∧
     (link_arch ctx0 gBidir 1).1.vpr_routing_annot_populated = true) :=
  ⟨by decide, link_arch_unsupported_rr_graph_effects ctx0 gBidir 1 (by decide)⟩

/-- C4 counterexample: in a concrete run the physical-binding annotator
(`annotate_pb_types`) executes strictly before the routing-graph
compatibility check — refuting "the checker runs before every annotation
pass". -/
theorem link_arch_check_order_cex :
    LinkPass.annotate_pb_types ∈ (link_arch ctx0 gUni 1).2 ∧
    LinkPass.check_rr_graph_support ∈ (link_arch ctx0 gUni 1).2 ∧
    (link_arch ctx0 gUni 1).2.indexOf LinkPass.annotate_pb_types <
      (link_arch ctx0 gUni 1).2.indexOf LinkPass.check_rr_graph_support := by
  decide

/-- C4 (amended): `link_arch` runs its passes in the source order: the
physical-binding, circuit-model and routing-net annotators run before the
compatibility check, and the check runs before GSB construction, the
mux-library build, the tile-direct build and the placement annotation,
which execute only when the check succeeds. -/
theorem link_arch_pass_order (ctx : OpenfpgaContext) (g : RRGraph) (T : ℚ) :
    ((link_arch ctx g T).2.indexOf LinkPass.annotate_pb_types <
       (link_arch ctx g T).2.indexOf LinkPass.check_rr_graph_support) ∧
    ((link_arch ctx g T).2.indexOf LinkPass.annotate_rr_graph_circuit_models <
       (link_arch ctx g T).2.indexOf LinkPass.check_rr_graph_support) ∧
    ((link_arch ctx g T).2.indexOf LinkPass.annotate_rr_node_nets <
       (link_arch ctx g T).2.indexOf LinkPass.check_rr_graph_support) ∧
    (is_vpr_rr_graph_supported g = true →
       ((link_arch ctx g T).2.indexOf LinkPass.check_rr_graph_support <
          (link_arch ctx g T).2.indexOf LinkPass.annotate_device_rr_gsb) ∧
       ((link_arch ctx g T).2.indexOf LinkPass.check_rr_graph_support <
          (link_arch ctx g T).2.indexOf LinkPass.build_device_mux_library) ∧
       ((link_arch ctx g T).2.indexOf LinkPass.check_rr_graph_support <
          (link_arch ctx g T).2.indexOf LinkPass.build_device_tile_direct) ∧
       ((link_arch ctx g T).2.indexOf LinkPass.check_rr_graph_support <
          (link_arch ctx g T).2.indexOf LinkPass.annotate_mapped_blocks)) ∧
    (is_vpr_rr_graph_supported g = false →
       LinkPass.annotate_device_rr_gsb ∉ (link_arch ctx g T).2 ∧
       LinkPass.build_device_mux_library ∉ (link_arch ctx g T).2 ∧
       LinkPass.build_device_tile_direct ∉ (link_arch ctx g T).2 ∧
       LinkPass.annotate_mapped_blocks ∉ (link_arch ctx g T).2) := by
  cases h : is_vpr_rr_graph_supported g
  · rw [link_arch]
    simp only [h]
    norm_num
    decide
  · rw [link_arch]
    simp only [h]
    norm_num
    decide

/-- C4 witness: the ordering facts at a concrete supported graph. -/
theorem link_arch_pass_order_witness :
    is_vpr_rr_graph_supported gUni = true ∧
    (((link_arch ctx0 gUni 1).2.indexOf LinkPass.check_rr_graph_support <
        (link_arch ctx0 gUni 1).2.indexOf LinkPass.annotate_device_rr_gsb) ∧
     ((link_arch ctx0 gUni 1).2.indexOf LinkPass.check_rr_graph_support <
        (link_arch ctx0 gUni 1).2.indexOf LinkPass.build_device_mux_library) ∧
     ((link_arch ctx0 gUni 1).2.indexOf LinkPass.check_rr_graph_support <
        (link_arch ctx0 gUni 1).2.indexOf LinkPass.build_device_tile_direct) ∧
     ((link_arch ctx0 gUni 1).2.indexOf LinkPass.check_rr_graph_support <
        (link_arch ctx0 gUni 1).2.indexOf LinkPass.annotate_mapped_blocks)) :=
  ⟨by decide, (link_arch_pass_order ctx0 gUni 1).2.2.2.1 (by decide)⟩

/-- C1: evaluation at the failing input.  With design constraints enabled
and the parsed table pinning atom net 0 to physical pin 5, while the
clustering places net 0 on operating pin 0 under the identity binding,
`repack` completes with net 0 routed through physical pin 0 — the parsed
constraints never reach `pack_physical_pbs` — and exits with
`CMD_EXEC_SUCCESS` instead of any constraint-conflict failure. -/
theorem repack_ignores_design_constraints :
    readXmlPin5 "dc.xml" = [{ net := 0, physical_pin := 5 }] ∧
    repack optsDc readXmlPin5 clusteringEx devAnnotId stepsOk =
      some { vpr_clustering_annot := [{ net := 0, physical_pin := 0 }],
             exit_code := CMD_EXEC_SUCCESS } ∧
    (∀ read_xml read_xml2 : String → List PinConstraint,
       repack optsDc read_xml clusteringEx devAnnotId stepsOk =
         repack optsDc read_xml2 clusteringEx devAnnotId stepsOk) := by
  refine ⟨rfl, rfl, ?_⟩
  intro read_xml read_xml2
  rfl

/-- C3: `repack` hands `CMD_EXEC_SUCCESS` to the shell whenever it completes,
regardless of whether its internal packing and truth-table steps succeeded. -/
theorem repack_exit_code_always_success
    (opts : RepackOptions) (read_xml : String → List PinConstraint)
    (clustering : List AtomNetPlacement) (dev_annot : VprDeviceAnnot)
    (steps : RepackStepResults) (r : RepackResult)
    (h : repack opts read_xml clustering dev_annot steps = some r) :
    r.exit_code = CMD_EXEC_SUCCESS := by
  rw [repack] at h
  rcases hl : (if opts.design_constraints_enabled then
      match VTR_ASSERT (!opts.design_constraints_value.isEmpty) with
      | none => none
      | some _ => some (read_xml opts.design_constraints_value)
    else some []) with _ | dc
  · rw [hl] at h
    exact absurd h (by simp)
  · rw [hl] at h
    simp only [Option.some.injEq] at h
    rw [← h]

/-- C3 witness: a completed run in which both internal steps failed still
exits with `CMD_EXEC_SUCCESS`. -/
theorem repack_exit_code_always_success_witness :
    ({ vpr_clustering_annot := [], exit_code := CMD_EXEC_SUCCESS }
        : RepackResult).exit_code = CMD_EXEC_SUCCESS :=
  repack_exit_code_always_success optsNoDc readXmlPin5 [] devAnnotId stepsFail _ rfl

/-- C10: an enabled design-constraints option whose value is the empty
string trips `VTR_ASSERT` and aborts the run instead of completing with a
failure status code. -/
theorem repack_empty_dc_value_asserts
    (opts : RepackOptions) (read_xml : String → List PinConstraint)
    (clustering : List AtomNetPlacement) (dev_annot : VprDeviceAnnot)
    (steps : RepackStepResults)
    (he : opts.design_constraints_enabled = true)
    (hv : opts.design_constraints_value = "") :
    repack opts read_xml clustering dev_annot steps = none := by
  rw [repack]
  simp only [he, hv, if_true]
  rfl

/-- C10 witness: the abort at the concrete enabled-but-empty options. -/
theorem repack_empty_dc_value_asserts_witness :
    optsEmptyDc.design_constraints_enabled = true ∧
    optsEmptyDc.design_constraints_value = "" ∧
    repack optsEmptyDc readXmlPin5 clusteringEx devAnnotId stepsOk = none :=
  ⟨rfl, rfl,
   repack_empty_dc_value_asserts optsEmptyDc readXmlPin5 clusteringEx devAnnotId
     stepsOk rfl rfl⟩

theorem mux_library_add_mem (lib : MuxLibrary) (t s : MuxSignature) :
    s ∈ (mux_library_add lib t).entries ↔ s ∈ lib.entries ∨ s = t := by
  by_cases h : t ∈ lib.entries
  · rw [mux_library_add, if_pos h]
    constructor
    · exact Or.inl
    · rintro (hs | rfl)
      · exact hs
      · exact h
  · rw [mux_library_add, if_neg h]
    simp [List.mem_append]

theorem mux_library_add_nodup (lib : MuxLibrary) (t : MuxSignature)
    (h : lib.entries.Nodup) : (mux_library_add lib t).entries.Nodup := by
  by_cases ht : t ∈ lib.entries
  · rw [mux_library_add, if_pos ht]
    exact h
  · rw [mux_library_add, if_neg ht]
    exact List.Nodup.append h (List.nodup_singleton t)
      (List.disjoint_singleton.mpr ht)

theorem foldl_mux_library_add_mem :
    ∀ (muxes : List MuxSignature) (lib : MuxLibrary) (s : MuxSignature),
      s ∈ (muxes.foldl mux_library_add lib).entries ↔ s ∈ lib.entries ∨ s ∈ muxes
  | [], lib, s => by simp
  | t :: rest, lib, s => by
    rw [List.foldl_cons, foldl_mux_library_add_mem rest (mux_library_add lib t) s,
        mux_library_add_mem]
    simp only [List.mem_cons]
    tauto

theorem foldl_mux_library_add_nodup :
    ∀ (muxes : List MuxSignature) (lib : MuxLibrary),
      lib.entries.Nodup → (muxes.foldl mux_library_add lib).entries.Nodup
  | [], _, h => h
  | t :: rest, lib, h =>
    foldl_mux_library_add_nodup rest (mux_library_add lib t)
      (mux_library_add_nodup lib t h)

/-- C8: the library built by `build_device_mux_library` holds exactly one
canonical entry per distinct structural signature occurring among the input
mux instances: its entry list has no duplicates, contains precisely the
signatures present in the input, and its size is the number of distinct
input signatures, independent of instance multiplicity. -/
theorem build_device_mux_library_dedup (device_muxes : List MuxSignature) :
    (build_device_mux_library device_muxes).entries.Nodup ∧
    (∀ s : MuxSignature,
       s ∈ (build_device_mux_library device_muxes).entries ↔ s ∈ device_muxes) ∧
    (build_device_mux_library device_muxes).entries.length =
      device_muxes.toFinset.card := by
  have hmem : ∀ s : MuxSignature,
      s ∈ (build_device_mux_library device_muxes).entries ↔ s ∈ device_muxes := by
    intro s
    rw [build_device_mux_library, foldl_mux_library_add_mem]
    simp
  have hnodup : (build_device_mux_library device_muxes).entries.Nodup :=
    foldl_mux_library_add_nodup device_muxes { entries := [] } (List.nodup_nil)
  refine ⟨hnodup, hmem, ?_⟩
  have hfin : (build_device_mux_library device_muxes).entries.toFinset =
      device_muxes.toFinset := by
    apply Finset.ext
    intro s
    rw [List.mem_toFinset, List.mem_toFinset]
    exact hmem s
  rw [← List.toFinset_card_of_nodup hnodup, hfin]

/-- C8 witness: two instances of the identical signature `sigA` contribute a
single canonical entry. -/
theorem build_device_mux_library_dedup_witness :
    (build_device_mux_library [sigA, sigA]).entries.Nodup ∧
    (sigA ∈ (build_device_mux_library [sigA, sigA]).entries ↔ sigA ∈ [sigA, sigA]) ∧
    (build_device_mux_library [sigA, sigA]).entries.length =
      ([sigA, sigA] : List MuxSignature).toFinset.card :=
  ⟨(build_device_mux_library_dedup [sigA, sigA]).1,
   (build_device_mux_library_dedup [sigA, sigA]).2.1 sigA,
   (build_device_mux_library_dedup [sigA, sigA]).2.2⟩

end openfpga
